import Mathlib

/-!
Shallow embedding of the homebox `map.py` network-favourites module.

Devices and favourite records are the tuples the source manipulates:
a device is the pair `(address, hardwareAddress)` collected by
`find_all_devices`, and a favourite record is the triple
`(name, (ip, mac), lastonline)` persisted under the `fav_devices` key.

Functions that can raise a Python runtime error are embedded into
`Option`, with `none` standing for an uncaught exception (e.g. the
`TypeError` raised by subscripting the `None` returned by a failed
`match_ip_in_devices` / `match_mac_in_devices` lookup, or the
`IndexError` raised by indexing an empty `send_ARP` response).

The external prober is abstracted: for the reconciliation pass a
function `probe : String → Bool` tells whether a direct `send_ARP` to an
address gets any answer, and for `save_favourite` a function
`arp : String → List String` gives the hardware addresses of the
responders to a direct probe, in answer order.
-/

namespace Homebox

/-- An observed device `(address, hardwareAddress)`, i.e. the pair
`(d.psrc, d.hwsrc)` built by `find_all_devices`. -/
abbrev Device := String × String

/-- A favourite record `(name, (ip, mac), lastonline)` as stored in the
favourites document. -/
abbrev Fav := String × (String × String) × Nat

/-- The key of the favourites document, `_MAIN_LIST = "fav_devices"`. -/
def MAIN_LIST : String := "fav_devices"

/-- `match_ip_in_devices(ip, devices)`: the first device in scan order whose
address equals `ip`, else `None`. -/
def match_ip_in_devices (ip : String) : List Device → Option Device
  | [] => none
  | d :: ds => if d.1 = ip then some d else match_ip_in_devices ip ds

/-- `match_mac_in_devices(mac, devices)`: the first device in scan order whose
hardware address equals `mac`, else `None`. -/
def match_mac_in_devices (mac : String) : List Device → Option Device
  | [] => none
  | d :: ds => if d.2 = mac then some d else match_mac_in_devices mac ds

/-- `match_in_devices(ip, mac, devices)`: the classification of a favourite
against a snapshot.  The full-match loop runs over the whole list first;
return codes follow the source docstring: `0` not found, `1` IP changed
(hardware address found at another address), `2` MAC changed (address
occupied by another hardware address), `3` conflict, `4` fully matching. -/
def match_in_devices (ip mac : String) (devices : List Device) : Nat :=
  if devices.any (fun d => d.1 == ip && d.2 == mac) then 4
  else
    match match_ip_in_devices ip devices, match_mac_in_devices mac devices with
    | some _, some _ => 3
    | some _, none => 2
    | none, some _ => 1
    | none, none => 0

/-- `load(key)` applied to the parsed JSON document, modelled as an
association list: the value stored at `key`, or `None`. -/
def load {V : Type} (key : String) : List (String × V) → Option V
  | [] => none
  | p :: ps => if p.1 = key then some p.2 else load key ps

/-- `save(key, value)`: read the whole document, execute
`data[key] = value`, write the document back.  On the association-list
model this replaces the binding of `key` if present and appends it
otherwise, leaving every other binding in place. -/
def save {V : Type} (key : String) (value : V) : List (String × V) → List (String × V)
  | [] => [(key, value)]
  | p :: ps => if p.1 = key then (key, value) :: ps else p :: save key value ps

/-- One iteration of the `test_favourites` loop on favourite
`fav = (name, (ip, mac), lastonline)`.  Returns the records appended to
`online`, the records appended to `new_favourites`, and the addresses
probed by `send_ARP` during the iteration; `none` models the `TypeError`
raised when the `None` result of a failed `match_ip_in_devices` /
`match_mac_in_devices` lookup is subscripted (the source's `mid == 1`
and `mid == 2` branches perform exactly such a subscript). -/
def test_favourites_step (devices : List Device) (now : Nat) (probe : String → Bool)
    (fav : Fav) : Option (List Fav × List Fav × List String) :=
  let name := fav.1
  let ip := fav.2.1.1
  let mac := fav.2.1.2
  let lastonline := fav.2.2
  let mid := match_in_devices ip mac devices
  if mid = 0 then
    if probe ip then
      some ([fav], [(name, (ip, mac), now)], [ip])
    else
      some ([], [fav], [ip])
  else if mid = 1 then
    match match_ip_in_devices ip devices with
    | none => none
    | some _ => some ([], [fav], [])
  else if mid = 2 then
    match match_mac_in_devices mac devices with
    | none => none
    | some dm => some ([(name, (dm.1, mac), lastonline)], [(name, (dm.1, mac), now)], [])
  else if mid = 3 then
    match match_mac_in_devices mac devices, match_ip_in_devices ip devices with
    | some dm, some di =>
        some ([(name, (dm.1, mac), lastonline)],
          [(name, (dm.1, mac), now),
           (name ++ "_CONFLICT_OLDIP_NEWMAC", (ip, di.2), now)],
          [])
    | _, _ => none
  else
    some ([fav], [(name, (ip, mac), now)], [])

/-- The loop of `test_favourites(favourites, devices, now)`, with the final
store write left to `test_favourites_run`: returns
`(online, new_favourites, probed_addresses)`, or `none` when some
iteration raises (in which case the remaining favourites are never
processed and no result is produced). -/
def test_favourites : List Fav → List Device → Nat → (String → Bool) →
    Option (List Fav × List Fav × List String)
  | [], _, _, _ => some ([], [], [])
  | fav :: rest, devices, now, probe =>
    match test_favourites_step devices now probe fav,
          test_favourites rest devices now probe with
    | some (on1, nf1, pr1), some (onr, nfr, prr) =>
        some (on1 ++ onr, nf1 ++ nfr, pr1 ++ prr)
    | _, _ => none

/-- A whole `test_favourites` call including its effect on the persisted
document `data`: on success the favourites document is replaced once, by
the single `save(_MAIN_LIST, new_favourites)` on the function's last
line; an exception propagates (`none`) and the save is never reached. -/
def test_favourites_run (favourites : List Fav) (devices : List Device) (now : Nat)
    (probe : String → Bool) (data : List (String × List Fav)) :
    Option (List Fav × List (String × List Fav)) :=
  match test_favourites favourites devices now probe with
  | none => none
  | some (online, nf, _) => some (online, save MAIN_LIST nf data)

/-- `save_favourite(name, ip, mac, lastonline)` acting on the loaded
favourites list; returns the favourites list that gets persisted.
`arp ip` lists the hardware addresses answering a direct `send_ARP(ip)`.
`none` models an uncaught exception: `send_ARP(ip)[0][1].hwsrc` raises
`IndexError` on an empty response, and
`match_ip_in_devices(ip, devices)[1]` raises `TypeError` when the lookup
returns `None`; the source's `if mac is None: return False` guard sits
after these subscripts and is unreachable. -/
def save_favourite (name ip : String) (mac : Option String) (lastonline : Nat)
    (favourites : List Fav) (devices : Option (List Device))
    (arp : String → List String) : Option (List Fav) :=
  let m : Option String :=
    match mac with
    | some m => some m
    | none =>
      match devices with
      | none => (arp ip).head?
      | some ds =>
        match match_ip_in_devices ip ds with
        | none => none
        | some d => some d.2
  match m with
  | none => none
  | some m =>
    some ((favourites.filter (fun f => f.1 != name)) ++ [(name, (ip, m), lastonline)])

/-- `delete_favourite(name)` acting on the loaded favourites list: the
reported flag and the favourites list left in the document afterwards
(the list is saved only on the `True` branch; on the `False` branch the
document is untouched, which coincides with the empty list it held). -/
def delete_favourite (name : String) (favourites : List Fav) : Bool × List Fav :=
  if favourites.isEmpty then (false, favourites)
  else (true, favourites.filter (fun f => f.1 != name))

/-- The identity part of a favourite record: its name, address and hardware
address, without the timestamp. -/
def favKey (f : Fav) : String × String × String := (f.1, f.2.1.1, f.2.1.2)

/-- `match_ip_in_devices` is the first-match search of the snapshot by
address, in scan order. -/
theorem match_ip_in_devices_eq_find (ip : String) (devices : List Device) :
    match_ip_in_devices ip devices = devices.find? (fun d => d.1 == ip) := by
  induction devices with
  | nil => rfl
  | cons d ds ih =>
    by_cases h : d.1 = ip <;> simp [match_ip_in_devices, List.find?_cons, h, ih]

/-- `match_mac_in_devices` is the first-match search of the snapshot by
hardware address, in scan order. -/
theorem match_mac_in_devices_eq_find (mac : String) (devices : List Device) :
    match_mac_in_devices mac devices = devices.find? (fun d => d.2 == mac) := by
  induction devices with
  | nil => rfl
  | cons d ds ih =>
    by_cases h : d.2 = mac <;> simp [match_mac_in_devices, List.find?_cons, h, ih]

/-- The address search fails exactly when no device in the snapshot has the
address. -/
theorem match_ip_in_devices_eq_none (ip : String) (devices : List Device) :
    match_ip_in_devices ip devices = none ↔ ¬ ∃ d ∈ devices, d.1 = ip := by
  induction devices with
  | nil => simp [match_ip_in_devices]
  | cons d ds ih =>
    by_cases h : d.1 = ip <;> simp [match_ip_in_devices, h, ih]

/-- The hardware-address search fails exactly when no device in the snapshot
has the hardware address. -/
theorem match_mac_in_devices_eq_none (mac : String) (devices : List Device) :
    match_mac_in_devices mac devices = none ↔ ¬ ∃ d ∈ devices, d.2 = mac := by
  induction devices with
  | nil => simp [match_mac_in_devices]
  | cons d ds ih =>
    by_cases h : d.2 = mac <;> simp [match_mac_in_devices, h, ih]

/-- The full-match loop answers exactly the existence of an exact device. -/
theorem any_exact_iff (ip mac : String) (devices : List Device) :
    (devices.any fun d => d.1 == ip && d.2 == mac) = true ↔
      ∃ d ∈ devices, d.1 = ip ∧ d.2 = mac := by
  simp [List.any_eq_true]

/-- Claim C4: `match_in_devices` is total and returns exactly one of the five
states — 4 = EXACT, 3 = CONFLICT, 2 = MAC_MOVED (address occupied by other
hardware), 1 = IP_MOVED (hardware found at other address), 0 = NONE — with
EXACT decided by a scan of the entire snapshot before any partial state,
and the partial lookups returning the first matching device in scan
order (they coincide with the first-match searches on the snapshot). -/
theorem C4_classify_total (ip mac : String) (devices : List Device) :
    match_in_devices ip mac devices ≤ 4 ∧
    (match_in_devices ip mac devices = 4 ↔ ∃ d ∈ devices, d.1 = ip ∧ d.2 = mac) ∧
    (match_in_devices ip mac devices = 3 ↔
      ¬(∃ d ∈ devices, d.1 = ip ∧ d.2 = mac) ∧
        (∃ d ∈ devices, d.1 = ip) ∧ (∃ d ∈ devices, d.2 = mac)) ∧
    (match_in_devices ip mac devices = 2 ↔
      ¬(∃ d ∈ devices, d.1 = ip ∧ d.2 = mac) ∧
        (∃ d ∈ devices, d.1 = ip) ∧ ¬(∃ d ∈ devices, d.2 = mac)) ∧
    (match_in_devices ip mac devices = 1 ↔
      ¬(∃ d ∈ devices, d.1 = ip ∧ d.2 = mac) ∧
        ¬(∃ d ∈ devices, d.1 = ip) ∧ (∃ d ∈ devices, d.2 = mac)) ∧
    (match_in_devices ip mac devices = 0 ↔
      ¬(∃ d ∈ devices, d.1 = ip) ∧ ¬(∃ d ∈ devices, d.2 = mac)) ∧
    match_ip_in_devices ip devices = devices.find? (fun d => d.1 == ip) ∧
    match_mac_in_devices mac devices = devices.find? (fun d => d.2 == mac) := by
  by_cases he : (devices.any fun d => d.1 == ip && d.2 == mac) = true
  · obtain ⟨d0, hd0, hd01, hd02⟩ := (any_exact_iff ip mac devices).mp he
    have hip : ∃ d ∈ devices, d.1 = ip := ⟨d0, hd0, hd01⟩
    have hex2 : ∃ d ∈ devices, d.1 = ip ∧ d.2 = mac := ⟨d0, hd0, hd01, hd02⟩
    have hv : match_in_devices ip mac devices = 4 := by
      simp [match_in_devices, he]
    rw [hv]
    exact ⟨le_refl 4, by simp [hex2], by simp [hex2], by simp [hex2],
      by simp [hex2], by simp [hip],
      match_ip_in_devices_eq_find ip devices, match_mac_in_devices_eq_find mac devices⟩
  · have hne : ¬ ∃ d ∈ devices, d.1 = ip ∧ d.2 = mac := fun hex =>
      he ((any_exact_iff ip mac devices).mpr hex)
    rcases hA : match_ip_in_devices ip devices with _ | d1 <;>
      rcases hB : match_mac_in_devices mac devices with _ | d2
    · have hipn := (match_ip_in_devices_eq_none ip devices).mp hA
      have hmacn := (match_mac_in_devices_eq_none mac devices).mp hB
      have hv : match_in_devices ip mac devices = 0 := by
        simp [match_in_devices, he, hA, hB]
      rw [hv]
      exact ⟨by norm_num, by simp [hne], by simp [hipn], by simp [hipn],
        by simp [hmacn], by simp [hipn, hmacn],
        by rw [← hA]; exact match_ip_in_devices_eq_find ip devices,
        by rw [← hB]; exact match_mac_in_devices_eq_find mac devices⟩
    · have hipn := (match_ip_in_devices_eq_none ip devices).mp hA
      have hmac : ∃ d ∈ devices, d.2 = mac := by
        by_contra hn
        have h0 := (match_mac_in_devices_eq_none mac devices).mpr hn
        rw [hB] at h0
        exact Option.noConfusion h0
      have hv : match_in_devices ip mac devices = 1 := by
        simp [match_in_devices, he, hA, hB]
      rw [hv]
      exact ⟨by norm_num, by simp [hne], by simp [hipn], by simp [hipn],
        by simp [hne, hipn, hmac], by simp [hmac],
        by rw [← hA]; exact match_ip_in_devices_eq_find ip devices,
        by rw [← hB]; exact match_mac_in_devices_eq_find mac devices⟩
    · have hip : ∃ d ∈ devices, d.1 = ip := by
        by_contra hn
        have h0 := (match_ip_in_devices_eq_none ip devices).mpr hn
        rw [hA] at h0
        exact Option.noConfusion h0
      have hmacn := (match_mac_in_devices_eq_none mac devices).mp hB
      have hv : match_in_devices ip mac devices = 2 := by
        simp [match_in_devices, he, hA, hB]
      rw [hv]
      exact ⟨by norm_num, by simp [hne], by simp [hmacn],
        by simp [hne, hip, hmacn], by simp [hip], by simp [hip],
        by rw [← hA]; exact match_ip_in_devices_eq_find ip devices,
        by rw [← hB]; exact match_mac_in_devices_eq_find mac devices⟩
    · have hip : ∃ d ∈ devices, d.1 = ip := by
        by_contra hn
        have h0 := (match_ip_in_devices_eq_none ip devices).mpr hn
        rw [hA] at h0
        exact Option.noConfusion h0
      have hmac : ∃ d ∈ devices, d.2 = mac := by
        by_contra hn
        have h0 := (match_mac_in_devices_eq_none mac devices).mpr hn
        rw [hB] at h0
        exact Option.noConfusion h0
      have hv : match_in_devices ip mac devices = 3 := by
        simp [match_in_devices, he, hA, hB]
      rw [hv]
      exact ⟨by norm_num, by simp [hne], by simp [hne, hip, hmac],
        by simp [hmac], by simp [hip], by simp [hip],
        by rw [← hA]; exact match_ip_in_devices_eq_find ip devices,
        by rw [← hB]; exact match_mac_in_devices_eq_find mac devices⟩

/-- Claim C1: the spec says a reconciliation pass never raises and always
performs its single full-document write.  The code crashes instead: with
the second favourite in the "IP changed" state (code 1), the pass
subscripts the `None` returned by `match_ip_in_devices` and raises
`TypeError` before the final save, so no write happens at all. -/
theorem C1_pass_crash :
    test_favourites_run
      [("nas", ("192.168.178.10", "aa:aa:aa:aa:aa:10"), 900),
       ("printer2", ("192.168.178.50", "aa:bb:cc:dd:ee:02"), 1000)]
      [("192.168.178.10", "aa:aa:aa:aa:aa:10"),
       ("192.168.178.60", "aa:bb:cc:dd:ee:02")]
      2000 (fun _ => false) [] = none := by rfl

/-- Claim C2: on the claim's own example (a favourite whose hardware address
reappears at a new address, classification code 1, IP_MOVED), the code is
claimed to emit the favourite online with the new address; instead the
`mid == 1` branch evaluates `match_ip_in_devices(ip, devices)[1]`, which
subscripts `None` and raises `TypeError`, aborting the pass. -/
theorem C2_ip_moved_crash :
    match_in_devices "192.168.178.50" "aa:bb:cc:dd:ee:01"
        [("192.168.178.99", "aa:bb:cc:dd:ee:01")] = 1 ∧
    test_favourites [("printer", ("192.168.178.50", "aa:bb:cc:dd:ee:01"), 1000)]
        [("192.168.178.99", "aa:bb:cc:dd:ee:01")] 2000 (fun _ => false) = none :=
  ⟨rfl, rfl⟩

/-- Claim C3: for a favourite whose address is occupied by different hardware
(classification code 2, MAC_MOVED), the spec says the favourite is carried
unchanged; instead the `mid == 2` branch evaluates
`match_mac_in_devices(mac, devices)[0]`, which subscripts `None` and
raises `TypeError`, aborting the pass. -/
theorem C3_mac_moved_crash :
    match_in_devices "192.168.178.50" "aa:bb:cc:dd:ee:01"
        [("192.168.178.50", "ff:ff:ff:ff:ff:99")] = 2 ∧
    test_favourites [("printer", ("192.168.178.50", "aa:bb:cc:dd:ee:01"), 1000)]
        [("192.168.178.50", "ff:ff:ff:ff:ff:99")] 2000 (fun _ => false) = none :=
  ⟨rfl, rfl⟩

/-- A favourite in the fully-matching state (code 4) is emitted online as it
stands and rewritten with its timestamp refreshed. -/
theorem step_exact (devices : List Device) (now : Nat) (probe : String → Bool)
    (name ip mac : String) (last : Nat)
    (h4 : match_in_devices ip mac devices = 4) :
    test_favourites_step devices now probe (name, (ip, mac), last) =
      some ([(name, (ip, mac), last)], [(name, (ip, mac), now)], []) := by
  simp [test_favourites_step, h4]

/-- A favourite in the no-match state (code 0) whose retry probe gets no
answer is carried unchanged, after exactly one probe of its address. -/
theorem step_none_miss (devices : List Device) (now : Nat) (probe : String → Bool)
    (name ip mac : String) (last : Nat)
    (h0 : match_in_devices ip mac devices = 0) (hp : probe ip = false) :
    test_favourites_step devices now probe (name, (ip, mac), last) =
      some ([], [(name, (ip, mac), last)], [ip]) := by
  simp [test_favourites_step, h0, hp]

/-- Claim C5: for a favourite classified CONFLICT (code 3), the pass emits
`(name, newAddress, hardwareAddress, original lastSeen)` online and writes
exactly two records: the relocated favourite `(name, newAddress,
hardwareAddress, now)` and the conflict record
`(name + "_CONFLICT_OLDIP_NEWMAC", originalAddress, observed hardware
address at that address, now)`; `dm` is the first device matching the
hardware address and `di` the first device occupying the address. -/
theorem C5_conflict_split (name ip mac : String) (lastonline now : Nat)
    (devices : List Device) (probe : String → Bool) (dm di : Device)
    (h3 : match_in_devices ip mac devices = 3)
    (hdm : match_mac_in_devices mac devices = some dm)
    (hdi : match_ip_in_devices ip devices = some di) :
    test_favourites_step devices now probe (name, (ip, mac), lastonline) =
      some ([(name, (dm.1, mac), lastonline)],
        [(name, (dm.1, mac), now),
         (name ++ "_CONFLICT_OLDIP_NEWMAC", (ip, di.2), now)],
        []) := by
  simp [test_favourites_step, h3, hdm, hdi]

/-- Witness for C5, on the specification's own conflict example. -/
theorem C5_conflict_split_witness :
    test_favourites_step
        [("192.168.178.20", "ff:ee:dd:cc:bb:aa"), ("192.168.178.77", "11:22:33:44:55:66")]
        2000 (fun _ => false) ("phone", ("192.168.178.20", "11:22:33:44:55:66"), 500) =
      some ([("phone", ("192.168.178.77", "11:22:33:44:55:66"), 500)],
        [("phone", ("192.168.178.77", "11:22:33:44:55:66"), 2000),
         ("phone_CONFLICT_OLDIP_NEWMAC", ("192.168.178.20", "ff:ee:dd:cc:bb:aa"), 2000)],
        []) :=
  C5_conflict_split "phone" "192.168.178.20" "11:22:33:44:55:66" 500 2000
    [("192.168.178.20", "ff:ee:dd:cc:bb:aa"), ("192.168.178.77", "11:22:33:44:55:66")]
    (fun _ => false)
    ("192.168.178.77", "11:22:33:44:55:66") ("192.168.178.20", "ff:ee:dd:cc:bb:aa")
    (by decide) (by decide) (by decide)

/-- Claim C6: for a favourite classified NONE (code 0), the pass issues
exactly one direct probe, to the favourite's address; on an answer the
favourite is treated as fully matching (emitted online as it stands and
rewritten with timestamp `now`), otherwise nothing is emitted and the
favourite is carried completely unchanged. -/
theorem C6_none_retry (name ip mac : String) (lastonline now : Nat)
    (devices : List Device) (probe : String → Bool)
    (h0 : match_in_devices ip mac devices = 0) :
    test_favourites_step devices now probe (name, (ip, mac), lastonline) =
      if probe ip then
        some ([(name, (ip, mac), lastonline)], [(name, (ip, mac), now)], [ip])
      else
        some ([], [(name, (ip, mac), lastonline)], [ip]) := by
  cases hp : probe ip <;> simp [test_favourites_step, h0, hp]

/-- Witness for C6: an empty snapshot, a responding probe. -/
theorem C6_none_retry_witness :
    test_favourites_step [] 77 (fun _ => true) ("cam", ("10.0.0.5", "aa:aa:aa:aa:aa:05"), 3) =
      some ([("cam", ("10.0.0.5", "aa:aa:aa:aa:aa:05"), 3)],
        [("cam", ("10.0.0.5", "aa:aa:aa:aa:aa:05"), 77)], ["10.0.0.5"]) :=
  C6_none_retry "cam" "10.0.0.5" "aa:aa:aa:aa:aa:05" 3 77 [] (fun _ => true) (by decide)

/-- Counterexample to Claim C7 as stated: after a CONFLICT favourite, the
second pass over the unchanged snapshot sees both the relocated record
and the freshly created `_CONFLICT_OLDIP_NEWMAC` record as fully
matching, so the second online report gains a record name the first one
never produced — the online sets of the two runs differ even ignoring
timestamps. -/
theorem C7_counterexample :
    test_favourites [("phone", ("192.168.178.20", "11:22:33:44:55:66"), 500)]
        [("192.168.178.20", "ff:ee:dd:cc:bb:aa"), ("192.168.178.77", "11:22:33:44:55:66")]
        1000 (fun _ => false) =
      some ([("phone", ("192.168.178.77", "11:22:33:44:55:66"), 500)],
        [("phone", ("192.168.178.77", "11:22:33:44:55:66"), 1000),
         ("phone_CONFLICT_OLDIP_NEWMAC", ("192.168.178.20", "ff:ee:dd:cc:bb:aa"), 1000)],
        []) ∧
    test_favourites
        [("phone", ("192.168.178.77", "11:22:33:44:55:66"), 1000),
         ("phone_CONFLICT_OLDIP_NEWMAC", ("192.168.178.20", "ff:ee:dd:cc:bb:aa"), 1000)]
        [("192.168.178.20", "ff:ee:dd:cc:bb:aa"), ("192.168.178.77", "11:22:33:44:55:66")]
        2000 (fun _ => false) =
      some ([("phone", ("192.168.178.77", "11:22:33:44:55:66"), 1000),
         ("phone_CONFLICT_OLDIP_NEWMAC", ("192.168.178.20", "ff:ee:dd:cc:bb:aa"), 1000)],
        [("phone", ("192.168.178.77", "11:22:33:44:55:66"), 2000),
         ("phone_CONFLICT_OLDIP_NEWMAC", ("192.168.178.20", "ff:ee:dd:cc:bb:aa"), 2000)],
        []) ∧
    List.map favKey [("phone", ("192.168.178.77", "11:22:33:44:55:66"), 500)] ≠
      List.map favKey
        [("phone", ("192.168.178.77", "11:22:33:44:55:66"), 1000),
         ("phone_CONFLICT_OLDIP_NEWMAC", ("192.168.178.20", "ff:ee:dd:cc:bb:aa"), 1000)] :=
  ⟨rfl, rfl, by decide⟩

/-- Claim C7 amended: a second pass over an unchanged snapshot reproduces the
first pass's online report up to timestamps, provided every favourite of
the first pass is either fully matching (code 4) or unmatched with a
failed retry probe (code 0) — i.e. no favourite takes the CONFLICT path,
which renames records, nor the code-1/code-2 paths, which raise. -/
theorem C7_idempotent_amended (favourites : List Fav) (devices : List Device)
    (now1 now2 : Nat) (probe : String → Bool)
    (h : ∀ f ∈ favourites,
        match_in_devices f.2.1.1 f.2.1.2 devices = 4 ∨
          (match_in_devices f.2.1.1 f.2.1.2 devices = 0 ∧ probe f.2.1.1 = false)) :
    ∃ on1 nf1 pr1 on2 nf2 pr2,
      test_favourites favourites devices now1 probe = some (on1, nf1, pr1) ∧
      test_favourites nf1 devices now2 probe = some (on2, nf2, pr2) ∧
      on2.map favKey = on1.map favKey := by
  induction favourites with
  | nil => exact ⟨[], [], [], [], [], [], rfl, rfl, rfl⟩
  | cons fav rest ih =>
    obtain ⟨on1, nf1, pr1, on2, nf2, pr2, h1, h2, hm⟩ :=
      ih (fun f hf => h f (List.mem_cons_of_mem _ hf))
    obtain ⟨name, ⟨ip, mac⟩, last⟩ := fav
    rcases h _ (List.mem_cons_self _ _) with h4 | ⟨h0, hp⟩
    · refine ⟨(name, (ip, mac), last) :: on1, (name, (ip, mac), now1) :: nf1, pr1,
        (name, (ip, mac), now1) :: on2, (name, (ip, mac), now2) :: nf2, pr2, ?_, ?_, ?_⟩
      · simp [test_favourites, step_exact devices now1 probe name ip mac last h4, h1]
      · simp [test_favourites, step_exact devices now2 probe name ip mac now1 h4, h2]
      · simp [favKey, hm]
    · refine ⟨on1, (name, (ip, mac), last) :: nf1, ip :: pr1,
        on2, (name, (ip, mac), last) :: nf2, ip :: pr2, ?_, ?_, ?_⟩
      · simp [test_favourites, step_none_miss devices now1 probe name ip mac last h0 hp, h1]
      · simp [test_favourites, step_none_miss devices now2 probe name ip mac last h0 hp, h2]
      · exact hm

/-- Witness for the amended C7: one fully-matching favourite and one
unmatched favourite whose retry misses. -/
theorem C7_idempotent_amended_witness :
    (∀ f ∈ ([("tv", ("10.0.0.2", "bb:bb:bb:bb:bb:02"), 5),
             ("lamp", ("10.0.0.9", "cc:cc:cc:cc:cc:09"), 7)] : List Fav),
        match_in_devices f.2.1.1 f.2.1.2 [("10.0.0.2", "bb:bb:bb:bb:bb:02")] = 4 ∨
          (match_in_devices f.2.1.1 f.2.1.2 [("10.0.0.2", "bb:bb:bb:bb:bb:02")] = 0 ∧
            (fun _ => false) f.2.1.1 = false)) ∧
    (∃ on1 nf1 pr1 on2 nf2 pr2,
      test_favourites
          [("tv", ("10.0.0.2", "bb:bb:bb:bb:bb:02"), 5),
           ("lamp", ("10.0.0.9", "cc:cc:cc:cc:cc:09"), 7)]
          [("10.0.0.2", "bb:bb:bb:bb:bb:02")] 100 (fun _ => false) = some (on1, nf1, pr1) ∧
      test_favourites nf1 [("10.0.0.2", "bb:bb:bb:bb:bb:02")] 200 (fun _ => false) =
        some (on2, nf2, pr2) ∧
      on2.map favKey = on1.map favKey) :=
  ⟨by decide,
   C7_idempotent_amended
     [("tv", ("10.0.0.2", "bb:bb:bb:bb:bb:02"), 5),
      ("lamp", ("10.0.0.9", "cc:cc:cc:cc:cc:09"), 7)]
     [("10.0.0.2", "bb:bb:bb:bb:bb:02")] 100 200 (fun _ => false) (by decide)⟩

/-- Claim C9: a `save_favourite` with the hardware address omitted and
unresolvable is claimed to fail with a reported NotFound failure; instead
the code raises an uncaught exception in both resolution paths — a
`TypeError` when the address is absent from the supplied snapshot, and an
`IndexError` when the direct probe gets no response — before its dead
`if mac is None` guard.  (No partial write occurs, since the exception
propagates before the save.) -/
theorem C9_save_favourite_crash :
    save_favourite "cam" "192.168.178.123" none 1000 []
        (some [("192.168.178.1", "aa:bb:cc:dd:ee:ff")]) (fun _ => []) = none ∧
    save_favourite "cam" "192.168.178.123" none 1000 [] none (fun _ => []) = none :=
  ⟨rfl, rfl⟩

/-- Counterexample to Claim C8 as stated: after deleting all records named
`"a"` from a document that also holds a record named `"b"`, a second
`delete_favourite("a")` still reports `True` — the same value as an
actual removal — because the report only tells whether the whole
document was non-empty, so the caller cannot distinguish the no-op. -/
theorem C8_counterexample :
    (delete_favourite "a"
        [("a", ("1.1.1.1", "aa:aa:aa:aa:aa:01"), 1),
         ("b", ("2.2.2.2", "bb:bb:bb:bb:bb:02"), 2)]).1 = true ∧
    (delete_favourite "a"
        (delete_favourite "a"
          [("a", ("1.1.1.1", "aa:aa:aa:aa:aa:01"), 1),
           ("b", ("2.2.2.2", "bb:bb:bb:bb:bb:02"), 2)]).2).1 = true :=
  ⟨rfl, rfl⟩

/-- Claim C8 amended: on a document containing a record named `name`,
`delete_favourite(name)` leaves zero records with that name, persists the
result, and reports `True`; a second call reports `False` (a no-op) only
when the first deletion emptied the whole document — the report
distinguishes an empty document, not the absence of the name. -/
theorem C8_delete_amended (name : String) (favourites : List Fav)
    (h : ∃ f ∈ favourites, f.1 = name) :
    (delete_favourite name favourites).1 = true ∧
    (∀ f ∈ (delete_favourite name favourites).2, f.1 ≠ name) ∧
    ((delete_favourite name (delete_favourite name favourites).2).1 = false ↔
      (delete_favourite name favourites).2 = []) := by
  obtain ⟨f0, hf0, hname⟩ := h
  have hempty : favourites.isEmpty = false := by
    cases favourites with
    | nil => simp at hf0
    | cons a l => rfl
  refine ⟨by simp [delete_favourite, hempty], ?_, ?_⟩
  · intro f hf
    simp only [delete_favourite, hempty, Bool.false_eq_true, if_false] at hf
    have := List.of_mem_filter hf
    simpa using this
  · simp only [delete_favourite, hempty, Bool.false_eq_true, if_false]
    cases hres : (favourites.filter fun f => f.1 != name) with
    | nil => simp [delete_favourite]
    | cons a l => simp [delete_favourite]

/-- Witness for the amended C8: a document holding the target name and one
other record. -/
theorem C8_delete_amended_witness :
    (∃ f ∈ ([("a", ("1.1.1.1", "aa:aa:aa:aa:aa:01"), 1),
             ("b", ("2.2.2.2", "bb:bb:bb:bb:bb:02"), 2)] : List Fav), f.1 = "a") ∧
    ((delete_favourite "a"
        [("a", ("1.1.1.1", "aa:aa:aa:aa:aa:01"), 1),
         ("b", ("2.2.2.2", "bb:bb:bb:bb:bb:02"), 2)]).1 = true ∧
      (∀ f ∈ (delete_favourite "a"
        [("a", ("1.1.1.1", "aa:aa:aa:aa:aa:01"), 1),
         ("b", ("2.2.2.2", "bb:bb:bb:bb:bb:02"), 2)]).2, f.1 ≠ "a") ∧
      ((delete_favourite "a" (delete_favourite "a"
          [("a", ("1.1.1.1", "aa:aa:aa:aa:aa:01"), 1),
           ("b", ("2.2.2.2", "bb:bb:bb:bb:bb:02"), 2)]).2).1 = false ↔
        (delete_favourite "a"
          [("a", ("1.1.1.1", "aa:aa:aa:aa:aa:01"), 1),
           ("b", ("2.2.2.2", "bb:bb:bb:bb:bb:02"), 2)]).2 = [])) :=
  ⟨by decide,
   C8_delete_amended "a"
     [("a", ("1.1.1.1", "aa:aa:aa:aa:aa:01"), 1),
      ("b", ("2.2.2.2", "bb:bb:bb:bb:bb:02"), 2)] (by decide)⟩

/-- Claim C10: a store write under one key leaves the value of every other
key of the persisted document unchanged — `save` merges the binding into
the previously persisted document rather than replacing the document. -/
theorem C10_save_frame {V : Type} (key : String) (value : V)
    (data : List (String × V)) (k : String) (h : k ≠ key) :
    load k (save key value data) = load k data := by
  have h2 : key ≠ k := Ne.symm h
  induction data with
  | nil => simp [save, load, h2]
  | cons p ps ih =>
    by_cases hp : p.1 = key
    · simp [save, load, hp, h2]
    · by_cases hk : p.1 = k <;> simp [save, load, hp, hk, h, h2, ih]

/-- Witness for C10: writing the favourites key does not disturb another
key. -/
theorem C10_save_frame_witness :
    ("other" ≠ "fav_devices") ∧
    load "other" (save "fav_devices" 7 [("other", 3)]) = load "other" [("other", 3)] :=
  ⟨by decide, C10_save_frame "fav_devices" 7 [("other", 3)] "other" (by decide)⟩

end Homebox
